import Mathlib

/-
Verification of the fastapi metrics service: a shallow embedding of the
request middleware (src/app/middleware/metrics_middleware.py), the database
layer (src/app/database.py), the API route handlers (src/app/routers/api.py)
and the lifecycle hooks (src/app/main.py), together with theorems about the
metric events each code path records.

Durations are abstract ticks (Nat); results of the underlying asyncpg pool
operations are supplied as explicit oracle values of type Except PyErr.
-/

namespace FastapiMetrics

/-- Python exceptions that the embedded code can raise. -/
inductive PyErr where
  | nameError (name : String)
  | valueError
  | indexError
  | runtimeError (msg : String)
  | dbError (code : Nat)
deriving Repr, DecidableEq

/-- One recorded metric event: counter increments, histogram observations and
gauge overwrites, carrying the label values the source passes to labels(...). -/
inductive MetricEvent where
  | httpInc (method route : String) (status : Nat)
  | httpObserve (method route : String) (status : Nat) (dur : Nat)
  | dbInc (operation status : String)
  | dbObserve (operation : String) (dur : Nat)
  | gaugeSet (value : Nat)
deriving Repr, DecidableEq

def isHttpInc : MetricEvent → Bool
  | .httpInc _ _ _ => true
  | _ => false

def isHttpObserve : MetricEvent → Bool
  | .httpObserve _ _ _ _ => true
  | _ => false

def isDbInc : MetricEvent → Bool
  | .dbInc _ _ => true
  | _ => false

def isDbObserve : MetricEvent → Bool
  | .dbObserve _ _ => true
  | _ => false

def countHttpInc (evs : List MetricEvent) : Nat := (evs.filter isHttpInc).length

def countHttpObserve (evs : List MetricEvent) : Nat := (evs.filter isHttpObserve).length

def countDbInc (evs : List MetricEvent) : Nat := (evs.filter isDbInc).length

def countDbObserve (evs : List MetricEvent) : Nat := (evs.filter isDbObserve).length

/-- Occurrences of a label name in a list of label names. -/
def countOcc (l : List String) (a : String) : Nat := (l.filter (fun b => b == a)).length

/-- prometheus_client label validation: labels(**kw) raises ValueError unless the
given keyword names are a permutation of the declared labelnames. -/
def labelsOk (declared given : List String) : Bool :=
  given.length == declared.length &&
    declared.all (fun a => countOcc given a == countOcc declared a)

/-- Modelled from the spec: the metric declarations (app/metrics/__init__.py) are
absent from src; spec section 3 declares the request counter labeled by
method, route, status_code. -/
def httpRequestsTotalLabelnames : List String := ["method", "route", "status_code"]

/-- Modelled from the spec: the request duration histogram is labeled by
method, route, status_code (spec section 3; the middleware passes exactly
these three keywords). -/
def httpRequestDurationLabelnames : List String := ["method", "route", "status_code"]

/-- Modelled from the spec: the db operation counter is labeled by operation
kind and outcome; database.py passes keywords operation and status. -/
def dbOperationsTotalLabelnames : List String := ["operation", "status"]

-- ---------------------------------------------------------------------------
-- Database layer (src/app/database.py)
-- ---------------------------------------------------------------------------

/-- The asyncpg pool: only its holder count is observable to the metrics code
(len of pool._holders, database.py line 155). -/
structure PoolState where
  holders : Nat
deriving Repr, DecidableEq

/-- The module-level variable pool of database.py (line 27). -/
structure DbState where
  pool : Option PoolState
deriving Repr, DecidableEq

def poolNotInitialized : PyErr := .runtimeError "Database pool not initialized"

/-- An asyncpg Record, a mapping of column name to value. -/
structure Row where
  fields : List (String × String)
deriving Repr, DecidableEq

/-- asyncpg Record truthiness: bool(record) is len(record) > 0, used by
dict(row) if row else None in fetchrow and execute_returning. -/
def recordTruthy (r : Row) : Bool := !r.fields.isEmpty

/-- Shallow embedding of _instrument_db_call (database.py lines 112-155):
guard on the pool, run the wrapped call, increment the db operation counter
with the outcome, and in the finally block record one duration observation
and overwrite the active-connections gauge from the pool state. -/
def instrument_db_call {α : Type} (st : DbState) (operation : String)
    (call : Except PyErr α) (d : Nat) : Except PyErr α × List MetricEvent :=
  match st.pool with
  | none => (.error poolNotInitialized, [])
  | some p =>
    match call with
    | .ok v =>
        (.ok v, [.dbInc operation "success", .dbObserve operation d, .gaugeSet p.holders])
    | .error e =>
        (.error e, [.dbInc operation "error", .dbObserve operation d, .gaugeSet p.holders])

/-- Result of init_db (database.py lines 34-101): the new module state, the
raised exception if any, the number of asyncpg.create_pool attempts made,
and the backoff delays slept between attempts. -/
structure InitResult where
  state : DbState
  err : Option PyErr
  attempts : Nat
  sleeps : List Nat
deriving Repr, DecidableEq

/-- Shallow embedding of init_db (database.py lines 34-101). If a pool already
exists it returns immediately (lines 46-47). Otherwise line 56 evaluates
logging.getLogger, but database.py imports only os, time, typing and asyncpg
(lines 8-13): the name logging is unbound, so a NameError is raised before the
retry loop of lines 64-101 and before any connection attempt. -/
def init_db (st : DbState) : InitResult :=
  match st.pool with
  | some _ => ⟨st, none, 0, []⟩
  | none => ⟨st, some (.nameError "logging"), 0, []⟩

/-- Shallow embedding of close_db (database.py lines 104-109): closes the pool
when one exists and resets the module variable to None. -/
def close_db (st : DbState) : DbState :=
  match st.pool with
  | some _ => ⟨none⟩
  | none => st

/-- Shallow embedding of fetch (database.py lines 158-169): guard, then the
instrumented pool.fetch under operation select; the row-to-dict mapping is
the identity on the Row model. -/
def fetch (st : DbState) (query : String) (call : Except PyErr (List Row)) (d : Nat) :
    Except PyErr (List Row) × List MetricEvent :=
  match st.pool with
  | none => (.error poolNotInitialized, [])
  | some _ => instrument_db_call st "select" call d

/-- Shallow embedding of fetchrow (database.py lines 172-183): guard, then the
instrumented pool.fetchrow under operation select; the result is
dict(row) if row else None, where an empty Record is falsy. -/
def fetchrow (st : DbState) (query : String) (call : Except PyErr (Option Row)) (d : Nat) :
    Except PyErr (Option Row) × List MetricEvent :=
  match st.pool with
  | none => (.error poolNotInitialized, [])
  | some _ =>
    match instrument_db_call st "select" call d with
    | (.ok row, evs) =>
        (.ok (match row with
              | some r => if recordTruthy r then some r else none
              | none => none), evs)
    | (.error e, evs) => (.error e, evs)

/-- An ASCII whitespace character in the sense of Python str.split with no
separator argument (the queries in this repository are ASCII). -/
def isPySpace (c : Char) : Bool :=
  c == ' ' || c == '\t' || c == '\n' || c == '\r' || c == '\x0b' || c == '\x0c'

/-- Helper for pySplit: accumulate the current token (reversed) while scanning. -/
def pySplitAux : List Char → List Char → List (List Char)
  | [], acc => if acc.isEmpty then [] else [acc.reverse]
  | c :: cs, acc =>
    if isPySpace c then
      if acc.isEmpty then pySplitAux cs [] else acc.reverse :: pySplitAux cs []
    else pySplitAux cs (c :: acc)

/-- Python str.split() with no arguments: split on runs of whitespace and drop
empty pieces, so a string that is empty or all whitespace yields no tokens. -/
def pySplit (cs : List Char) : List (List Char) := pySplitAux cs []

/-- Python str.lower on the ASCII tokens at hand. -/
def pyLower (cs : List Char) : List Char := cs.map Char.toLower

/-- Shallow embedding of execute (database.py lines 186-197): guard, then
operation = query.split()[0].lower() — indexing [0] raises IndexError when
split() yields no token — then the instrumented pool.execute. -/
def execute (st : DbState) (query : String) (call : Except PyErr String) (d : Nat) :
    Except PyErr String × List MetricEvent :=
  match st.pool with
  | none => (.error poolNotInitialized, [])
  | some _ =>
    match pySplit query.toList with
    | [] => (.error .indexError, [])
    | tok :: _ => instrument_db_call st (String.mk (pyLower tok)) call d

/-- Shallow embedding of execute_returning (database.py lines 200-211): guard,
then the instrumented pool.fetchrow under operation modify; the result is
dict(row) if row else None. -/
def execute_returning (st : DbState) (query : String)
    (call : Except PyErr (Option Row)) (d : Nat) :
    Except PyErr (Option Row) × List MetricEvent :=
  match st.pool with
  | none => (.error poolNotInitialized, [])
  | some _ =>
    match instrument_db_call st "modify" call d with
    | (.ok row, evs) =>
        (.ok (match row with
              | some r => if recordTruthy r then some r else none
              | none => none), evs)
    | (.error e, evs) => (.error e, evs)

-- ---------------------------------------------------------------------------
-- Request middleware (src/app/middleware/metrics_middleware.py) and the
-- log_request background task (src/app/routers/api.py lines 162-183)
-- ---------------------------------------------------------------------------

/-- The parts of a starlette Request the instrumentation reads: the method,
the raw path stored in the ASGI scope under the key path, and request.url.path
(the fallback the middleware uses when the scope key is absent). -/
structure Request where
  method : String
  scopePath : Option String
  urlPath : String
deriving Repr, DecidableEq

/-- The one background task the program ever schedules: log_request, with the
request method, the raw request.url.path, the response status code and the
measured process time (api.py lines 120-125). -/
inductive BackgroundTask where
  | logRequest (method endpoint : String) (status : Nat) (processTime : Nat)
deriving Repr, DecidableEq

/-- A starlette Response as the instrumentation sees it: its status code and
the background task attached to it, run by the server after the response. -/
structure Response where
  status : Nat
  background : Option BackgroundTask
deriving Repr, DecidableEq

/-- The route label the middleware computes (metrics_middleware.py line 28):
request.scope.get(path, request.url.path), i.e. the raw request path. -/
def routeLabel (req : Request) : String := req.scopePath.getD req.urlPath

/-- The status code the middleware records (metrics_middleware.py line 27):
the response status when call_next returned one, else the fallback 500. -/
def statusOf : Except PyErr Response → Nat
  | .ok r => r.status
  | .error _ => 500

/-- Shallow embedding of MetricsMiddleware.dispatch (metrics_middleware.py
lines 19-41): run call_next (its outcome is the oracle argument), and in the
finally block increment the request counter and observe the duration
histogram, both labeled with method, route and status; the outcome itself is
returned or re-raised unchanged. -/
def dispatch (req : Request) (outcome : Except PyErr Response) (d : Nat) :
    Except PyErr Response × List MetricEvent :=
  let status := statusOf outcome
  let route := routeLabel req
  (outcome,
   [.httpInc req.method route status,
    .httpObserve req.method route status d])

/-- Shallow embedding of log_request (api.py lines 162-183). It calls
labels with keywords method, endpoint, status_code on the request counter,
whose declared labelnames are method, route, status_code: prometheus_client
raises ValueError on the mismatched names before any increment, so the later
histogram call (keywords method, endpoint) is never reached either. The
events recorded before the first failure are returned with the error. -/
def log_request (m ep : String) (status t : Nat) : Option PyErr × List MetricEvent :=
  if labelsOk httpRequestsTotalLabelnames ["method", "endpoint", "status_code"] then
    if labelsOk httpRequestDurationLabelnames ["method", "endpoint"] then
      (none, [.httpInc m ep status, .httpObserve m ep status t])
    else (some .valueError, [.httpInc m ep status])
  else (some .valueError, [])

/-- Events recorded by running the background task attached to a response,
after the server has sent it. -/
def runBackground : Option BackgroundTask → List MetricEvent
  | none => []
  | some (.logRequest m ep status t) => (log_request m ep status t).2

/-- All HTTP metric events one completed request produces across the whole
program: the middleware events from dispatch, then the events of the
background task of the returned response (a raised outcome carries none). -/
def handleRequest (req : Request) (outcome : Except PyErr Response) (d : Nat) :
    List MetricEvent :=
  let (res, mw) := dispatch req outcome d
  let bg := match res with
    | .ok r => runBackground r.background
    | .error _ => []
  mw ++ bg

-- ---------------------------------------------------------------------------
-- Route patterns (src/app/routers/api.py lines 24 and 186-187)
-- ---------------------------------------------------------------------------

def lbrace : Char := Char.ofNat 123

def rbrace : Char := Char.ofNat 125

/-- Helper: split a path on the slash character, keeping empty segments,
as the routing layer segments both patterns and paths. -/
def splitSlashAux : List Char → List Char → List (List Char)
  | [], acc => [acc.reverse]
  | c :: cs, acc =>
    if c == '/' then acc.reverse :: splitSlashAux cs []
    else splitSlashAux cs (c :: acc)

def splitSlash (s : String) : List (List Char) := splitSlashAux s.toList []

/-- A brace-delimited path parameter segment of a route pattern. -/
def isParamSeg (seg : List Char) : Bool :=
  seg.head? == some lbrace && seg.getLast? == some rbrace && decide (3 ≤ seg.length)

/-- One pattern segment matches one path segment: a parameter segment matches
any non-empty segment, a literal segment matches itself. -/
def segMatches (pat seg : List Char) : Bool :=
  if isParamSeg pat then !seg.isEmpty else pat == seg

/-- The framework-level notion the spec appeals to: a route pattern matches a
concrete request path when the segments align. -/
def routeMatches (pattern path : String) : Bool :=
  let ps := splitSlash pattern
  let qs := splitSlash path
  ps.length == qs.length && (ps.zip qs).all (fun pq => segMatches pq.1 pq.2)

/-- The delete route pattern: APIRouter with the api prefix (api.py line 24)
plus the data route with the item_id path parameter (api.py line 187). -/
def deleteDataRoutePath : String := "/api/data/\x7bitem_id\x7d"

-- ---------------------------------------------------------------------------
-- Route handlers (src/app/routers/api.py)
-- ---------------------------------------------------------------------------

/-- The INSERT query of create_data (api.py lines 84-88). -/
def createQuery : String :=
  "INSERT INTO user_data (name, email, message, created_at) VALUES ($1, $2, $3, NOW()) RETURNING id, created_at, updated_at"

/-- The DELETE query of delete_data (api.py line 204). -/
def deleteQuery : String := "DELETE FROM user_data WHERE id = $1"

/-- Shallow embedding of create_data (api.py lines 61-159). It runs the
instrumented fetchrow on the INSERT query; on a returned row it schedules the
log_request background task on a 201 response and increments the db operation
counter with operation create and status success (lines 128-131); a missing
row or a database error becomes an HTTPException 500, and the outer handler
increments the counter with operation create and status error
(lines 145-148 and 152-155). The error value is the HTTP status raised. -/
def create_data (st : DbState) (method endpoint : String)
    (call : Except PyErr (Option Row)) (d t : Nat) :
    Except Nat Response × List MetricEvent :=
  match fetchrow st createQuery call d with
  | (.ok (some _), evs) =>
      (.ok ⟨201, some (.logRequest method endpoint 201 t)⟩,
       evs ++ [.dbInc "create" "success"])
  | (.ok none, evs) => (.error 500, evs ++ [.dbInc "create" "error"])
  | (.error _, evs) => (.error 500, evs ++ [.dbInc "create" "error"])

/-- Shallow embedding of delete_data (api.py lines 196-227). It runs the
instrumented execute on the DELETE query; a DELETE 0 status becomes an
HTTPException 404, re-raised with no extra metric (lines 207-217); any other
failure increments the db operation counter with operation delete and status
error (lines 220-223) and becomes an HTTPException 500. -/
def delete_data (st : DbState) (itemId : Int) (call : Except PyErr String) (d : Nat) :
    Except Nat Response × List MetricEvent :=
  match execute st deleteQuery call d with
  | (.ok s, evs) =>
      if s == "DELETE 0" then (.error 404, evs)
      else (.ok ⟨204, none⟩, evs)
  | (.error _, evs) => (.error 500, evs ++ [.dbInc "delete" "error"])

-- ---------------------------------------------------------------------------
-- Lifecycle hooks (src/app/main.py)
-- ---------------------------------------------------------------------------

/-- The process-wide application state the lifecycle hooks touch: the database
module state and whether the background CPU sampler task is running. -/
structure AppState where
  db : DbState
  samplerRunning : Bool
deriving Repr, DecidableEq

/-- The try-block body of _startup (main.py lines 63-95). Its first statement
after the log line is os.getenv (line 67), but main.py imports asyncio,
logging, contextlib, typing, fastapi, prometheus_client and the app modules
(lines 2-19) and never imports os: the name os is unbound, so the body raises
NameError before init_db is called and before any background task is created. -/
def startupBody (st : AppState) : AppState × Option PyErr :=
  (st, some (.nameError "os"))

/-- Shallow embedding of _startup (main.py lines 60-100): run the body; the
except clause (lines 96-100) catches every exception, logs that the
application will start without database connectivity, and returns normally
instead of re-raising, so the server goes on to accept traffic. -/
def appStartup (st : AppState) : AppState × Option PyErr :=
  match startupBody st with
  | (st1, some _) => (st1, none)
  | (st1, none) => (st1, none)

/-- Shallow embedding of _shutdown (main.py lines 103-111): cancel each
background task and await it; nothing else is done — in particular close_db
(database.py lines 104-109) is never invoked anywhere in the repository, so
the pool state is left untouched. -/
def appShutdown (st : AppState) : AppState :=
  { db := st.db, samplerRunning := false }

-- ---------------------------------------------------------------------------
-- Helper lemmas
-- ---------------------------------------------------------------------------

/-- A list of whitespace characters yields no token under pySplitAux. -/
theorem pySplitAux_nil (cs : List Char) :
    cs.all isPySpace = true → pySplitAux cs [] = [] := by
  induction cs with
  | nil => intro _; rfl
  | cons c cs ih =>
    intro h
    rw [List.all_cons, Bool.and_eq_true] at h
    simp only [pySplitAux, h.1, if_true, List.isEmpty_nil]
    exact ih h.2

/-- A string of whitespace characters yields no token under pySplit. -/
theorem pySplit_nil (cs : List Char) (h : cs.all isPySpace = true) :
    pySplit cs = [] := pySplitAux_nil cs h

-- ---------------------------------------------------------------------------
-- Claim theorems
-- ---------------------------------------------------------------------------

/-- C1: for every completed HTTP request — whether the handler returns normally
or raises — the whole program records exactly one request counter increment
and exactly one duration observation, labeled with the request method, the
route label and the status code (the handler response code when available,
else the fallback 500). The only other code path touching these metrics, the
log_request background task scheduled by create_data, fails prometheus label
validation before incrementing, so it contributes no event. -/
theorem http_request_metrics_recorded_exactly_once
    (req : Request) (outcome : Except PyErr Response) (d : Nat) :
    handleRequest req outcome d =
      [.httpInc req.method (routeLabel req) (statusOf outcome),
       .httpObserve req.method (routeLabel req) (statusOf outcome) d] ∧
    countHttpInc (handleRequest req outcome d) = 1 ∧
    countHttpObserve (handleRequest req outcome d) = 1 := by
  have h : handleRequest req outcome d =
      [.httpInc req.method (routeLabel req) (statusOf outcome),
       .httpObserve req.method (routeLabel req) (statusOf outcome) d] := by
    cases outcome with
    | error e => rfl
    | ok r =>
      cases r with
      | mk status background =>
        cases background with
        | none => rfl
        | some bt => cases bt with | logRequest m ep s t => rfl
  exact ⟨h, by rw [h]; rfl, by rw [h]; rfl⟩

/-- C2 counterexample: a DELETE request for item 123 is matched by the route
pattern of delete_data, yet the middleware labels both events with the raw
path containing the interpolated id, which differs from the pattern. -/
theorem route_label_not_pattern_counterexample :
    routeMatches deleteDataRoutePath "/api/data/123" = true ∧
    (dispatch ⟨"DELETE", some "/api/data/123", "/api/data/123"⟩
        (.ok ⟨204, none⟩) 1).2 =
      [.httpInc "DELETE" "/api/data/123" 204,
       .httpObserve "DELETE" "/api/data/123" 204 1] ∧
    routeLabel ⟨"DELETE", some "/api/data/123", "/api/data/123"⟩ ≠ deleteDataRoutePath := by
  refine ⟨by decide, rfl, by decide⟩

/-- C2 amended: the route label attached to the request counter increment and
the duration observation is the raw request path taken from the ASGI scope
(falling back to request.url.path), not the matched route pattern. -/
theorem route_label_is_raw_request_path
    (req : Request) (outcome : Except PyErr Response) (d : Nat) :
    (dispatch req outcome d).2 =
      [.httpInc req.method (req.scopePath.getD req.urlPath) (statusOf outcome),
       .httpObserve req.method (req.scopePath.getD req.urlPath) (statusOf outcome) d] := rfl

/-- C3: evaluation of the startup hook on the fresh application state. The
claim says a total pool-initialization failure propagates out of the startup
hook so the service refuses traffic; the code instead catches every exception
in the body (including the NameError its first statement always raises, and
any init_db failure on the intended path), logs, and returns normally with no
pool and no background task, so the server goes on to accept traffic. -/
theorem startup_swallows_failure_and_serves_without_pool :
    (∀ st : AppState, appStartup st = (st, none)) ∧
    appStartup ⟨⟨none⟩, false⟩ = (⟨⟨none⟩, false⟩, none) :=
  ⟨fun _ => rfl, rfl⟩

/-- C4 counterexample: one successful POST /api/data performs exactly one DB
call attempt (the instrumented fetchrow, contributing one counter increment),
yet the events of the whole handler contain two db operation counter
increments — the handler adds a second one with operation create. -/
theorem create_data_double_counts_db_operation :
    countDbInc (create_data ⟨some ⟨1⟩⟩ "POST" "/api/data"
      (.ok (some ⟨[("id", "1")]⟩)) 1 1).2 = 2 ∧
    countDbInc (instrument_db_call ⟨some ⟨1⟩⟩ "select"
      (Except.ok (some (⟨[("id", "1")]⟩ : Row)) : Except PyErr (Option Row)) 1).2 = 1 :=
  ⟨rfl, rfl⟩

/-- C4 amended: the instrumented query executor increments the db operation
counter exactly once per DB call attempt, but route handlers add further
increments for the same call: create_data always adds one with operation
create, and delete_data adds one with operation delete when the underlying
execute fails, so those requests record two increments for one attempt. -/
theorem db_counter_once_in_executor_but_handlers_add_more
    (p : PoolState) (op m ep : String) (call : Except PyErr Nat)
    (callRow : Except PyErr (Option Row)) (e : PyErr) (it : Int) (d t : Nat) :
    countDbInc (instrument_db_call ⟨some p⟩ op call d).2 = 1 ∧
    countDbInc (create_data ⟨some p⟩ m ep callRow d t).2 = 2 ∧
    countDbInc (delete_data ⟨some p⟩ it (Except.error e) d).2 = 2 := by
  refine ⟨?_, ?_, ?_⟩
  · cases call <;> rfl
  · rcases callRow with e' | vrow
    · rfl
    · rcases vrow with _ | r
      · rfl
      · cases hrt : recordTruthy r <;>
          simp only [create_data, fetchrow, instrument_db_call, hrt] <;> rfl
  · rfl

/-- C5: evaluation of the shutdown hook. The claim says shutdown cancels the
background sampler and then closes the pool; the code cancels and awaits the
background tasks but never invokes close_db, so the pool is left open on
every shutdown. -/
theorem shutdown_cancels_sampler_but_leaves_pool_open (st : AppState) :
    appShutdown st = ⟨st.db, false⟩ ∧
    (appShutdown ⟨⟨some ⟨3⟩⟩, true⟩).db.pool = some ⟨3⟩ :=
  ⟨rfl, rfl⟩

/-- C6: for every wrapped DB call with the pool present, a failing underlying
operation increments the db operation counter with outcome error for the
given operation kind and the original failure is returned unchanged, and
regardless of outcome exactly one duration observation is recorded for that
operation kind and the active-connections gauge is overwritten from the pool
state. -/
theorem instrument_db_call_error_propagation_and_single_observation
    (p : PoolState) (op : String) (e : PyErr) (v : Nat) (d : Nat) :
    instrument_db_call ⟨some p⟩ op (Except.error e : Except PyErr Nat) d =
      (.error e, [.dbInc op "error", .dbObserve op d, .gaugeSet p.holders]) ∧
    instrument_db_call ⟨some p⟩ op (Except.ok v) d =
      (.ok v, [.dbInc op "success", .dbObserve op d, .gaugeSet p.holders]) ∧
    countDbObserve (instrument_db_call ⟨some p⟩ op (Except.error e : Except PyErr Nat) d).2 = 1 ∧
    countDbObserve (instrument_db_call ⟨some p⟩ op (Except.ok v : Except PyErr Nat) d).2 = 1 ∧
    countDbInc (instrument_db_call ⟨some p⟩ op (Except.error e : Except PyErr Nat) d).2 = 1 :=
  ⟨rfl, rfl, rfl, rfl, rfl⟩

/-- C7 counterexample: two consecutive init_db calls starting from the fresh
state create no pool at all — the claim that they create exactly one fails,
because init_db raises NameError on the unbound name logging before any
creation attempt. -/
theorem double_init_creates_no_pool :
    (init_db (init_db ⟨none⟩).state).state.pool = none ∧
    (init_db ⟨none⟩).attempts = 0 ∧
    (init_db ⟨none⟩).err = some (.nameError "logging") :=
  ⟨rfl, rfl, rfl⟩

/-- C7 amended: when a pool already exists, init_db returns immediately with
no error, no connection attempt, no backoff sleep and an unchanged state; at
most one pool exists at any time, but two consecutive calls from a fresh
state create zero pools, not one, since init_db fails before creating one. -/
theorem init_db_returns_immediately_when_pool_exists (p : PoolState) :
    init_db ⟨some p⟩ = ⟨⟨some p⟩, none, 0, []⟩ := rfl

/-- C8: evaluation of init_db on the uninitialized state. The claim says an
unreachable database causes exactly five connection attempts with doubling
delays and then the connection failure is raised; the code instead raises
NameError for the unbound name logging before the retry loop, making zero
attempts and sleeping zero times. -/
theorem init_db_name_error_before_any_attempt :
    init_db ⟨none⟩ = ⟨⟨none⟩, some (.nameError "logging"), 0, []⟩ := rfl

/-- C9: every query primitive invoked without an initialized pool — before
init_db has succeeded or after close_db — fails immediately with the
pool-not-initialized RuntimeError, independent of the underlying call oracle
(so no DB operation occurs), and records no metric event. -/
theorem query_primitives_fail_fast_without_pool
    (st : DbState) (q : String) (callRows : Except PyErr (List Row))
    (callRow : Except PyErr (Option Row)) (callStr : Except PyErr String) (d : Nat) :
    fetch ⟨none⟩ q callRows d = (.error poolNotInitialized, []) ∧
    fetchrow ⟨none⟩ q callRow d = (.error poolNotInitialized, []) ∧
    execute ⟨none⟩ q callStr d = (.error poolNotInitialized, []) ∧
    execute_returning ⟨none⟩ q callRow d = (.error poolNotInitialized, []) ∧
    (close_db st).pool = none ∧
    fetch (close_db st) q callRows d = (.error poolNotInitialized, []) := by
  have hc : close_db st = ⟨none⟩ := by
    cases st with
    | mk pool => cases pool <;> rfl
  exact ⟨rfl, rfl, rfl, rfl, by rw [hc], by rw [hc]; rfl⟩

/-- C10: with the pool present, execute on a query that is empty or all
whitespace raises IndexError from indexing the split query, before any DB
call (the result is independent of the call oracle) and before any metric
event; on a query with a first whitespace-delimited token the inferred
operation kind is that token lower-cased, passed to the instrumented call. -/
theorem execute_operation_kind_inference (q : String) (p : PoolState)
    (call : Except PyErr String) (d : Nat) :
    (q.toList.all isPySpace = true →
      execute ⟨some p⟩ q call d = (.error .indexError, [])) ∧
    (∀ tok rest, pySplit q.toList = tok :: rest →
      execute ⟨some p⟩ q call d =
        instrument_db_call ⟨some p⟩ (String.mk (pyLower tok)) call d) := by
  constructor
  · intro h
    have h0 : pySplit q.toList = [] := pySplit_nil _ h
    simp only [execute, h0]
  · intro tok rest h
    simp only [execute, h]

/-- C10 witness: a whitespace query raises IndexError with no event, and the
DELETE query of delete_data is inferred as operation delete. -/
theorem execute_operation_kind_inference_witness :
    execute ⟨some ⟨2⟩⟩ "   " (.ok "X") 1 = (.error .indexError, []) ∧
    execute ⟨some ⟨2⟩⟩ "DELETE FROM user_data WHERE id = $1" (.ok "DELETE 1") 1 =
      instrument_db_call ⟨some ⟨2⟩⟩ (String.mk (pyLower "DELETE".toList)) (.ok "DELETE 1") 1 := by
  constructor
  · exact (execute_operation_kind_inference "   " ⟨2⟩ (.ok "X") 1).1 (by decide)
  · exact (execute_operation_kind_inference "DELETE FROM user_data WHERE id = $1" ⟨2⟩
      (.ok "DELETE 1") 1).2 "DELETE".toList
      ["FROM".toList, "user_data".toList, "WHERE".toList, "id".toList, "=".toList, "$1".toList]
      (by decide)

end FastapiMetrics
